import Mathlib

/-!
Shallow embedding of the resilient cross-service call / event-propagation
layer of the orders+users microservice repository.

Embedded source files:
* orders service (`src/unnamed/part_000`): the event consumer bound to the
  `user.created` queue, the `fetchWithBackoff` retrier, `callUserService`,
  the opossum circuit breaker fallback, and the HTTP route handlers
  `POST /` and `DELETE /:id`.
* users service (`src/unnamed/part_001`): the HTTP route handler `POST /`.

JavaScript runtime behaviour that the embedded code relies on (JSON values,
property access, truthiness, `Map` get/set/has) is modelled explicitly below.
Randomness (`Math.random`), network outcomes (`fetch`), database outcomes
(prisma) and broker outcomes (`amqp.ch.publish`) are inputs to the embedded
functions, so theorems quantify over them.
-/

/-- JSON values as produced by `JSON.parse`. Numbers are modelled as
integers; no claim inspects a fractional numeric payload. -/
inductive JsonValue where
  | null
  | bool (b : Bool)
  | num (n : Int)
  | str (s : String)
  | arr (elems : List JsonValue)
  | obj (fields : List (String × JsonValue))

/-- Whether a JSON value is a JavaScript primitive. SameValueZero compares
primitives by value and objects/arrays by reference. -/
def isPrimitive : JsonValue → Bool
  | .null => true
  | .bool _ => true
  | .num _ => true
  | .str _ => true
  | .arr _ => false
  | .obj _ => false

/-- SameValueZero on the values this program puts in `Map` key position:
equal primitives compare equal by value (`NaN` cannot arise — numbers are
integers); a comparison involving an object or array is a reference
comparison and evaluates to false here, because every stored key and every
looked-up id originates from its own `JSON.parse` call (one per delivered
message or request body), so two non-primitive values in a comparison are
never the same reference. -/
def primEq : JsonValue → JsonValue → Bool
  | .null, .null => true
  | .bool a, .bool b => a == b
  | .num a, .num b => a == b
  | .str a, .str b => a == b
  | _, _ => false

/-- Errors thrown by the embedded JavaScript code. -/
inductive JsError where
  /-- TypeError from reading a property of `null`. -/
  | typeError
  /-- ReferenceError thrown by evaluating the unbound name `err`
  (the source catches the exception as `error` but then references `err`). -/
  | refErrUndefined
  /-- the `new Error(...)` thrown in `fetchWithBackoff` when
  `res.status >= 500`. -/
  | httpServerError (status : Nat)
  /-- an opaque transport-level rejection of `fetch` (connection refused,
  abort by the per-attempt timeout, ...); the tag distinguishes instances. -/
  | transport (tag : Nat)
  /-- the error thrown by the breaker fallback, carrying
  `code = SERVICE_UNAVAILABLE`. -/
  | serviceUnavailable
deriving DecidableEq, Repr

/-- JavaScript truthiness of a JSON value (`undefined` is handled by
`jsTruthyOpt`). `NaN` does not arise since numbers are integers. -/
def jsTruthy : JsonValue → Bool
  | .null => false
  | .bool b => b
  | .num n => n ≠ 0
  | .str s => s ≠ ""
  | .arr _ => true
  | .obj _ => true

/-- Truthiness of a possibly-undefined value (`none` is `undefined`). -/
def jsTruthyOpt : Option JsonValue → Bool
  | none => false
  | some v => jsTruthy v

/-- Last binding of a field name in an object literal: `JSON.parse` keeps
the last occurrence of a duplicated key. -/
def lookupLast (name : String) : List (String × JsonValue) → Option JsonValue
  | [] => none
  | (k, v) :: rest =>
    match lookupLast name rest with
    | some w => some w
    | none => if k = name then some v else none

/-- JavaScript property access `v.name`: throws a TypeError on `null`,
returns the field on an object, and `undefined` (`none`) on any other
value (primitives auto-box and own none of the accessed names; arrays own
none of them either). -/
def jsGetProp (name : String) : JsonValue → Except JsError (Option JsonValue)
  | .null => .error .typeError
  | .obj fields => .ok (lookupLast name fields)
  | _ => .ok none

/-- Keys of the `userCache` JavaScript `Map`: either `undefined` (when the
consumed payload has no `id` property) or a JSON value (the unvalidated
`id` property, which may be of any shape). -/
inductive JsKey where
  | undef
  | val (v : JsonValue)

/-- Key comparison used by the cache `Map`: SameValueZero. `undefined`
equals `undefined`; values compare per `primEq` (by value for primitives,
never equal for objects/arrays, which are distinct references — one per
parse — in every comparison this program performs). -/
def JsKey.sameValueZero : JsKey → JsKey → Bool
  | .undef, .undef => true
  | .val a, .val b => primEq a b
  | _, _ => false

/-- Whether a key is `undefined` or a primitive value — the keys on which
SameValueZero degenerates to value equality. -/
def JsKey.isPrim : JsKey → Bool
  | .undef => true
  | .val v => isPrimitive v

/-- The in-memory `userCache` `Map`, as an insertion-ordered association
list. -/
abbrev Cache := List (JsKey × JsonValue)

/-- Lookup in the cache (`userCache.get`); `userCache.has` is
`(cacheGet c k).isSome`. -/
def cacheGet (c : Cache) (k : JsKey) : Option JsonValue :=
  match c with
  | [] => none
  | (k', v) :: rest => if JsKey.sameValueZero k' k then some v else cacheGet rest k

/-- Write to the cache (`userCache.set`): overwrites in place when the key
exists, otherwise appends, as a JavaScript `Map` does. -/
def cacheSet (c : Cache) (k : JsKey) (v : JsonValue) : Cache :=
  match c with
  | [] => [(k, v)]
  | (k', v') :: rest =>
    if JsKey.sameValueZero k' k then (k, v) :: rest
    else (k', v') :: cacheSet rest k v

/-!
Event consumer (`amqp.ch.consume` handler, orders service).

The handler receives a raw message; `JSON.parse(msg.content.toString())`
either throws (malformed content) or yields a JSON value, so a message is
embedded as that parse outcome.
-/

/-- Parse outcome of the content of a consumed message. -/
inductive MsgContent where
  | malformed
  | wellFormed (v : JsonValue)

/-- Observable effect of one run of the consume handler. -/
structure ConsumeResult where
  cache : Cache
  /-- `amqp.ch.ack(msg)` was called. -/
  acked : Bool
  /-- `amqp.ch.nack(msg, false, false)` was called: the message is rejected
  without requeue and discarded. -/
  nacked : Bool
  /-- an exception escaped the handler (would crash the process). -/
  crashed : Bool

/-- Cache key used by `userCache.set(user.id, user)`: the `id` property
when present, otherwise the JavaScript value `undefined`. -/
def keyOfId : Option JsonValue → JsKey
  | none => JsKey.undef
  | some idVal => JsKey.val idVal

/-- The consume handler: inside one try block it parses the content, reads
`user.id`, writes `userCache.set(user.id, user)` and acks; any exception in
that block (parse failure, or the TypeError from `user.id` when the parsed
value is `null`) reaches the catch block, which nacks without requeue.
Nothing escapes the handler. -/
def consumeHandler (c : Cache) (m : MsgContent) : ConsumeResult :=
  match m with
  | .malformed => { cache := c, acked := false, nacked := true, crashed := false }
  | .wellFormed user =>
    match jsGetProp "id" user with
    | .error _ => { cache := c, acked := false, nacked := true, crashed := false }
    | .ok idProp =>
      { cache := cacheSet c (keyOfId idProp) user
        acked := true, nacked := false, crashed := false }

/-!
Backoff retrier (`fetchWithBackoff`, orders service).

Each loop iteration performs one `fetch` under an AbortController timeout;
the per-attempt outcome (a resolved response, or a rejection from a
transport error or the abort) is an input indexed by the attempt number.
`Math.floor(Math.random() * 200)` is an input in `Fin 200`, indexed the
same way.
-/

/-- Constant `BASE_HTTP_RETRY_DELAY` (ms). -/
def BASE_HTTP_RETRY_DELAY : Nat := 500

/-- Constant `MAX_HTTP_RETRIES`. -/
def MAX_HTTP_RETRIES : Nat := 3

/-- A resolved `fetch` response: its status and the value that
`resp.json()` would produce (bodies are assumed to be well-formed JSON;
no claim exercises a body that fails to parse). -/
structure JsResponse where
  status : Nat
  body : JsonValue

/-- Outcome of one `fetch` call under its per-attempt timeout. -/
inductive FetchOutcome where
  | resp (r : JsResponse)
  | err (e : JsError)

/-- Result of the body of one loop iteration up to the catch: a response
with `status >= 500` raises the server-error `Error`, any rejection of
`fetch` raises its error, any other response is returned. -/
def attemptResult : FetchOutcome → Except JsError JsResponse
  | .resp r => if r.status ≥ 500 then .error (.httpServerError r.status) else .ok r
  | .err e => .error e

/-- Observable outcome of one call of `fetchWithBackoff`: the value the
promise settles with (`.ok none` is a resolution with `undefined`, possible
only when the loop bound is zero), the sleeps performed between attempts
(in ms, in order), and the number of `fetch` calls made. -/
structure FetchRun where
  result : Except JsError (Option JsResponse)
  sleeps : List Nat
  attemptsMade : Nat

/-- The retry loop of `fetchWithBackoff`, from loop counter `retries` with
`fuel = maxA - retries` iterations left. On a caught failure at
`retries = maxA - 1` the catch block runs `throw err`; `err` is not bound
anywhere (the catch binds `error`), so a ReferenceError is thrown instead
of the caught error. Otherwise it sleeps
`BASE_HTTP_RETRY_DELAY * 2 ^ retries + jitter` and continues. -/
def fetchLoop (attempts : Nat → FetchOutcome) (jitters : Nat → Fin 200)
    (maxA : Nat) (retries : Nat) (fuel : Nat) : FetchRun :=
  match fuel with
  | 0 => { result := .ok none, sleeps := [], attemptsMade := 0 }
  | fuel' + 1 =>
    match attemptResult (attempts retries) with
    | .ok r => { result := .ok (some r), sleeps := [], attemptsMade := 1 }
    | .error _caught =>
      if retries = maxA - 1 then
        { result := .error .refErrUndefined, sleeps := [], attemptsMade := 1 }
      else
        let d := BASE_HTTP_RETRY_DELAY * 2 ^ retries + (jitters retries).val
        let rest := fetchLoop attempts jitters maxA (retries + 1) fuel'
        { result := rest.result, sleeps := d :: rest.sleeps
          attemptsMade := 1 + rest.attemptsMade }

/-- `fetchWithBackoff(url, ms)`: the loop runs `retries` from `0` while
`retries < MAX_HTTP_RETRIES`. -/
def fetchWithBackoff (attempts : Nat → FetchOutcome) (jitters : Nat → Fin 200) : FetchRun :=
  fetchLoop attempts jitters MAX_HTTP_RETRIES 0 MAX_HTTP_RETRIES

/-!
`callUserService` and the opossum circuit breaker (orders service).
-/

/-- The `Response.ok` accessor: status in the range 200..299. -/
def respOk (r : JsResponse) : Bool :=
  decide (200 ≤ r.status) && decide (r.status ≤ 299)

/-- The object literal `{ error: 'usuário inválido', status: resp.status }`
returned by `callUserService` for a non-ok response. -/
def invalidUserObj (status : Nat) : JsonValue :=
  .obj [("error", .str "usuário inválido"), ("status", .num status)]

/-- `callUserService(userId)`: awaits `fetchWithBackoff`; a rejection
propagates. A resolved non-ok response (4xx: the 5xx range was already
turned into a rejection by the retrier) is mapped to the invalid-user
object; otherwise the parsed body is returned. The `.ok none` case is the
loop bound being zero, which cannot happen with `MAX_HTTP_RETRIES = 3`;
there `resp.ok` on `undefined` would throw a TypeError. -/
def callUserService (attempts : Nat → FetchOutcome) (jitters : Nat → Fin 200) :
    Except JsError JsonValue :=
  match (fetchWithBackoff attempts jitters).result with
  | .error e => .error e
  | .ok none => .error .typeError
  | .ok (some r) => if respOk r then .ok r.body else .ok (invalidUserObj r.status)

/-- How one `breaker.fire(userId)` call goes, as the opossum library
dispatches it: either the wrapped action resolves with a value, or the
call is on a failure path — the breaker is open and short-circuits, the
wrapped call rejects (retries exhausted), or the breaker timeout fires —
carrying the raw underlying error. On every failure path opossum invokes
the registered fallback with the same arguments and settles `fire` with
the fallback outcome. -/
inductive BreakerPath where
  | success (v : JsonValue)
  | failure (rawError : JsError)

/-- Observable outcome of `breaker.fire`: how the promise settles and
whether the registered fallback ran. -/
structure FireResult where
  result : Except JsError JsonValue
  fallbackInvoked : Bool

/-- The fallback registered with `breaker.fallback(...)`: return
`userCache.get(userId)` when `userCache.has(userId)`, otherwise throw the
error with `code = 'SERVICE_UNAVAILABLE'`. -/
def breakerFallback (cache : Cache) (userId : JsonValue) : Except JsError JsonValue :=
  match cacheGet cache (JsKey.val userId) with
  | some cached => .ok cached
  | none => .error .serviceUnavailable

/-- `breaker.fire(userId)` with the source-registered fallback. -/
def fire (cache : Cache) (userId : JsonValue) : BreakerPath → FireResult
  | .success v => { result := .ok v, fallbackInvoked := false }
  | .failure _rawError =>
    { result := breakerFallback cache userId, fallbackInvoked := true }

/-- Dispatch of a closed (or half-open trial) breaker: the wrapped
`callUserService` resolution is the success path, its rejection the
failure path. -/
def breakerPathOf : Except JsError JsonValue → BreakerPath
  | .ok v => .success v
  | .error e => .failure e

/-!
HTTP route handlers (`POST /` and `DELETE /:id` of the orders service,
`POST /` of the users service).

Database outcomes (prisma) and broker availability are inputs. The row a
successful prisma call returns is the input value itself; the generated
`nanoid` ids live inside that row and are never inspected by the embedded
logic.
-/

/-- Modelled from the spec: routing key `USER_CREATED` from
`common/events.js`, a file that is not among the sources; the spec names
the event type `user.created`. -/
def ROUTING_KEY_USER_CREATED : String := "user.created"

/-- Modelled from the spec: routing key `ORDER_CREATED` from
`common/events.js` (not among the sources). -/
def ROUTING_KEY_ORDER_CREATED : String := "order.created"

/-- Modelled from the spec: routing key `ORDER_CANCELLED` from
`common/events.js` (not among the sources). -/
def ROUTING_KEY_ORDER_CANCELLED : String := "order.cancelled"

/-- What the HTTP caller observes: either a response with a status and a
JSON body, or no response at all because a rejection escaped the async
handler (express 4 does not catch async rejections; the promise rejection
is unhandled). -/
inductive HttpOutcome where
  | response (status : Nat) (body : JsonValue)
  | unhandledRejection (e : JsError)

/-- Whether a synchronous `amqp.ch.publish` call would throw. -/
inductive PublishOutcome where
  | ok
  | throws

/-- Broker connection state seen by a handler: `amqp?.ch` is truthy
(connected, with the outcome one publish call would have) or falsy. -/
inductive AmqpState where
  | connected (pub : PublishOutcome)
  | disconnected

/-- Observable effect of one orders-service handler run. `dbWrites` lists
the rows committed by prisma during the run (a row once listed is never
removed: there is no rollback primitive in the code). `published` lists
the events actually published. -/
structure HandlerResult where
  response : HttpOutcome
  dbWrites : List JsonValue
  published : List (String × JsonValue)
  cache : Cache

/-- An `{ error: <message> }` response body. -/
def mkErrObj (msg : String) : JsonValue :=
  .obj [("error", .str msg)]

/-- Property read on a value known not to be `null` (the handlers only
destructure `req.body || {}`, which is never `null`). -/
def jsGetPropOr (name : String) (v : JsonValue) : Option JsonValue :=
  match jsGetProp name v with
  | .ok p => p
  | .error _ => none

/-- `Array.isArray` on a possibly-undefined value. -/
def isArrayOpt : Option JsonValue → Bool
  | some (.arr _) => true
  | _ => false

/-- `typeof x === 'number'` on a possibly-undefined value. -/
def isNumberOpt : Option JsonValue → Bool
  | some (.num _) => true
  | _ => false

/-- `user.status || 400` fed to `res.status`: a truthy numeric status is
used, anything else falls back to 400 (the only values reaching this spot
in the program carry a numeric upstream status). -/
def statusOr400 : Option JsonValue → Nat
  | some (.num n) => if n ≠ 0 then n.toNat else 400
  | _ => 400

/-- `req.body || {}`: the parsed body if truthy, else an empty object. -/
def bodyOrEmpty : Option JsonValue → JsonValue
  | none => .obj []
  | some v => if jsTruthy v then v else .obj []

/-- The `POST /` handler of the orders service. Steps, as in the source:
destructure `req.body || {}`; reject invalid shapes with 400; await
`breaker.fire(userId)` OUTSIDE any try block, so a rejection escapes the
handler; a truthy `user.error` is answered with `user.status || 400`;
otherwise prisma creates the order inside a try block whose catch
dereferences the unbound name `err` (a ReferenceError escapes); on
success the `order.created` event is published inside an inner try whose
catch only logs, and 201 with the created row is sent. -/
def ordersPostHandler (cache : Cache) (reqBody : Option JsonValue)
    (firePath : BreakerPath) (dbCreate : Except JsError JsonValue)
    (amqp : AmqpState) : HandlerResult :=
  let body := bodyOrEmpty reqBody
  let userId := jsGetPropOr "userId" body
  let items := jsGetPropOr "items" body
  let total := jsGetPropOr "total" body
  if ¬ (jsTruthyOpt userId && isArrayOpt items && isNumberOpt total) then
    { response := .response 400 (mkErrObj "userId, items[], total<number> são obrigatórios")
      dbWrites := [], published := [], cache := cache }
  else
    match (fire cache (userId.getD .null) firePath).result with
    | .error e =>
      { response := .unhandledRejection e, dbWrites := [], published := [], cache := cache }
    | .ok user =>
      match jsGetProp "error" user with
      | .error e =>
        { response := .unhandledRejection e, dbWrites := [], published := [], cache := cache }
      | .ok errProp =>
        if jsTruthyOpt errProp then
          { response := .response (statusOr400 (jsGetPropOr "status" user))
              (.obj [("error", errProp.getD .null)])
            dbWrites := [], published := [], cache := cache }
        else
          match dbCreate with
          | .error _dbErr =>
            { response := .unhandledRejection .refErrUndefined
              dbWrites := [], published := [], cache := cache }
          | .ok order =>
            let published := match amqp with
              | .connected .ok => [(ROUTING_KEY_ORDER_CREATED, order)]
              | .connected .throws => []
              | .disconnected => []
            { response := .response 201 order
              dbWrites := [order], published := published, cache := cache }

/-- The `DELETE /:id` handler of the orders service: prisma updates the
order to `cancelled` inside a try block whose catch dereferences the
unbound name `err` (a ReferenceError escapes on a database failure); on
success the `order.cancelled` event is published inside an inner try whose
catch only logs, and 200 is sent. -/
def ordersDeleteHandler (cache : Cache) (id : String)
    (dbUpdate : Except JsError JsonValue) (amqp : AmqpState) : HandlerResult :=
  match dbUpdate with
  | .error _dbErr =>
    { response := .unhandledRejection .refErrUndefined
      dbWrites := [], published := [], cache := cache }
  | .ok order =>
    let published := match amqp with
      | .connected .ok => [(ROUTING_KEY_ORDER_CANCELLED, order)]
      | .connected .throws => []
      | .disconnected => []
    { response := .response 200 (.obj [("message", .str "order cancelled"), ("id", .str id)])
      dbWrites := [order], published := published, cache := cache }

/-- Observable effect of one users-service handler run (the users service
holds no cache). -/
structure UsersHandlerResult where
  response : HttpOutcome
  dbWrites : List JsonValue
  published : List (String × JsonValue)

/-- The `POST /` handler of the users service: destructure
`req.body || {}`; reject a falsy `name` or `email` with 400; prisma
creates the user inside a try block whose catch dereferences the unbound
name `err` (a ReferenceError escapes on a database failure); on success
the `user.created` event is published inside an inner try whose catch
only logs, and 201 with the created row is sent. -/
def usersPostHandler (reqBody : Option JsonValue)
    (dbCreate : Except JsError JsonValue) (amqp : AmqpState) : UsersHandlerResult :=
  let body := bodyOrEmpty reqBody
  let name := jsGetPropOr "name" body
  let email := jsGetPropOr "email" body
  if ¬ (jsTruthyOpt name && jsTruthyOpt email) then
    { response := .response 400 (mkErrObj "name and email are required")
      dbWrites := [], published := [] }
  else
    match dbCreate with
    | .error _dbErr =>
      { response := .unhandledRejection .refErrUndefined
        dbWrites := [], published := [] }
    | .ok user =>
      let published := match amqp with
        | .connected .ok => [(ROUTING_KEY_USER_CREATED, user)]
        | .connected .throws => []
        | .disconnected => []
      { response := .response 201 user
        dbWrites := [user], published := published }

/-!
Concrete inputs used by closed theorems and witnesses.
-/

/-- A run in which every `fetch` attempt rejects with a distinct transport
error (upstream unreachable). -/
def attemptsAllFail : Nat → FetchOutcome := fun i => .err (.transport i)

/-- Jitter draws that all come out zero. -/
def jitterZero : Nat → Fin 200 := fun _ => ⟨0, by decide⟩

/-- The cached payload for id `u_1`. -/
def userU1 : JsonValue := .obj [("id", .str "u_1"), ("name", .str "Alice")]

/-- A cache holding exactly the entry for id `u_1`. -/
def cacheU1 : Cache := [(JsKey.val (.str "u_1"), userU1)]

/-- A well-formed `POST /` body for the orders service naming user
`u_9`. -/
def orderBodyU9 : JsonValue :=
  .obj [("userId", .str "u_9"), ("items", .arr []), ("total", .num 10)]

/-- A payload whose unvalidated `id` property is itself an object; each
delivery of it parses that id into a fresh reference. -/
def objIdPayload : JsonValue := .obj [("id", .obj [("k", .num 1)])]

/-- A run whose first `fetch` attempt rejects with a transport error and
whose later attempts resolve with a 404 response. -/
def attemptsFaultThen404 : Nat → FetchOutcome :=
  fun j => if j = 0 then .err (.transport 0) else .resp ⟨404, .null⟩

/-!
Helper lemmas.
-/

/-- SameValueZero is reflexive on primitives — a primitive value is equal
to any occurrence of the same value, across parses. Objects and arrays are
not: `primEq` on them is false (distinct references in every comparison
this program makes). -/
theorem primEq_refl_of_primitive (v : JsonValue) (h : isPrimitive v = true) :
    primEq v v = true := by
  cases v <;> simp_all [primEq, isPrimitive]

/-- Reflexivity of the key comparison on `undefined` and primitive
keys. -/
theorem jsKey_svz_refl_of_prim (k : JsKey) (h : k.isPrim = true) :
    JsKey.sameValueZero k k = true := by
  cases k with
  | undef => rfl
  | val v => exact primEq_refl_of_primitive v h

/-- Overwriting a cache entry with the very same primitive (or
`undefined`) key and value a second time changes nothing; for an
object or array key the second write appends instead. -/
theorem cacheSet_idem_of_prim (c : Cache) (k : JsKey) (v : JsonValue)
    (h : k.isPrim = true) :
    cacheSet (cacheSet c k v) k v = cacheSet c k v := by
  induction c with
  | nil => simp [cacheSet, jsKey_svz_refl_of_prim k h]
  | cons hd tl ih =>
    obtain ⟨k', v'⟩ := hd
    cases hb : JsKey.sameValueZero k' k with
    | true => simp [cacheSet, hb, jsKey_svz_refl_of_prim k h]
    | false => simp [cacheSet, hb, ih]

/-- Every sleep the retry loop records is the backoff term for its
position plus the corresponding jitter draw. -/
theorem fetchLoop_sleeps_nth (attempts : Nat → FetchOutcome) (jitters : Nat → Fin 200)
    (maxA : Nat) :
    ∀ (fuel retries j : Nat) (x : Nat),
      (fetchLoop attempts jitters maxA retries fuel).sleeps.get? j = some x →
      x = BASE_HTTP_RETRY_DELAY * 2 ^ (retries + j) + (jitters (retries + j)).val := by
  intro fuel
  induction fuel with
  | zero => intro retries j x hx; simp [fetchLoop] at hx
  | succ fuel ih =>
    intro retries j x hx
    simp only [fetchLoop] at hx
    split at hx
    · simp at hx
    · split at hx
      · simp at hx
      · cases j with
        | zero =>
          simp only [List.get?_cons_zero, Option.some_inj] at hx
          simp [← hx]
        | succ j =>
          simp only [List.get?_cons_succ] at hx
          have := ih (retries + 1) j x hx
          rw [this]
          ring_nf

/-- A loop iteration whose attempt resolves below the 5xx range returns
that response at once: one attempt, no sleeps. -/
theorem fetchLoop_first_ok (attempts : Nat → FetchOutcome) (jitters : Nat → Fin 200)
    (maxA retries fuel : Nat) (r : JsResponse)
    (hA : attemptResult (attempts retries) = .ok r) :
    fetchLoop attempts jitters maxA retries (fuel + 1)
      = { result := .ok (some r), sleeps := [], attemptsMade := 1 } := by
  unfold fetchLoop
  dsimp only
  rw [hA]

/-- When the first `i` attempts from position `retries` are retryable
faults (none of them on the final loop index) and attempt `retries + i`
resolves below the 5xx range, the loop returns that response on that very
attempt: exactly `i + 1` attempts, one sleep per preceding fault, and no
retry after the resolution. -/
theorem fetchLoop_ok_after_faults (attempts : Nat → FetchOutcome) (jitters : Nat → Fin 200)
    (maxA : Nat) (r : JsResponse) :
    ∀ (fuel retries i : Nat), i < fuel →
      (∀ j, j < i → retries + j ≠ maxA - 1 ∧
        ∃ e, attemptResult (attempts (retries + j)) = .error e) →
      attemptResult (attempts (retries + i)) = .ok r →
      (fetchLoop attempts jitters maxA retries fuel).result = .ok (some r) ∧
      (fetchLoop attempts jitters maxA retries fuel).attemptsMade = i + 1 ∧
      (fetchLoop attempts jitters maxA retries fuel).sleeps.length = i := by
  intro fuel
  induction fuel with
  | zero => intro retries i hi _ _; exact absurd hi (Nat.not_lt_zero i)
  | succ fuel ih =>
    intro retries i hi hfail hok
    cases i with
    | zero =>
      rw [Nat.add_zero] at hok
      rw [fetchLoop_first_ok attempts jitters maxA retries fuel r hok]
      exact ⟨rfl, rfl, rfl⟩
    | succ i =>
      obtain ⟨hne, e, he⟩ := hfail 0 (Nat.succ_pos i)
      rw [Nat.add_zero] at hne he
      have hstep : fetchLoop attempts jitters maxA retries (fuel + 1)
          = { result := (fetchLoop attempts jitters maxA (retries + 1) fuel).result,
              sleeps := (BASE_HTTP_RETRY_DELAY * 2 ^ retries + (jitters retries).val)
                :: (fetchLoop attempts jitters maxA (retries + 1) fuel).sleeps,
              attemptsMade :=
                1 + (fetchLoop attempts jitters maxA (retries + 1) fuel).attemptsMade } := by
        conv_lhs => unfold fetchLoop
        dsimp only
        rw [he]
        dsimp only
        rw [if_neg hne]
      have hfail2 : ∀ j, j < i → (retries + 1) + j ≠ maxA - 1 ∧
          ∃ e2, attemptResult (attempts ((retries + 1) + j)) = .error e2 := by
        intro j hj
        have harith : retries + 1 + j = retries + (j + 1) := by omega
        rw [harith]
        exact hfail (j + 1) (Nat.succ_lt_succ hj)
      have hok2 : attemptResult (attempts ((retries + 1) + i)) = .ok r := by
        have harith : retries + 1 + i = retries + (i + 1) := by omega
        rw [harith]
        exact hok
      have hrec := ih (retries + 1) i (Nat.lt_of_succ_lt_succ hi) hfail2 hok2
      rw [hstep]
      refine ⟨hrec.1, ?_, ?_⟩
      · dsimp only
        rw [hrec.2.1]
        omega
      · dsimp only [List.length_cons]
        rw [hrec.2.2]

/-!
Claim theorems.
-/

/-- C1: whenever `breaker.fire(id)` ends on a failure path (breaker open,
retries exhausted, or breaker timeout — any raw error `e`), and the
fallback cache has an entry for `id`, `fire` resolves with exactly that
cached entry through the invoked fallback; no exception, in particular
not the raw error, reaches the caller. -/
theorem breaker_fire_failure_returns_cached (cache : Cache) (userId : JsonValue)
    (v : JsonValue) (e : JsError)
    (h : cacheGet cache (JsKey.val userId) = some v) :
    (fire cache userId (.failure e)).result = .ok v ∧
    (fire cache userId (.failure e)).fallbackInvoked = true := by
  refine ⟨?_, rfl⟩
  simp [fire, breakerFallback, h]

/-- C1 witness: a concrete failure-path call for id `u_1` with the entry
cached returns the cached payload. -/
theorem breaker_fire_failure_returns_cached_witness :
    cacheGet cacheU1 (JsKey.val (.str "u_1")) = some userU1 ∧
    (fire cacheU1 (.str "u_1") (.failure (.transport 0))).result = .ok userU1 :=
  ⟨rfl, (breaker_fire_failure_returns_cached cacheU1 (.str "u_1") userU1 (.transport 0) rfl).1⟩

/-- C2: at a concrete failure-path call for id `u_9` with an empty cache,
`breaker.fire` does fail with the SERVICE_UNAVAILABLE error — but the
`POST /` route awaits `breaker.fire` outside any try block, so the
rejection escapes the handler unhandled and the HTTP caller receives no
503 response (nor any response). -/
theorem ordersPost_unavailable_rejection_escapes :
    (fire ([] : Cache) (.str "u_9") (.failure (.transport 0))).result
      = .error .serviceUnavailable ∧
    (ordersPostHandler [] (some orderBodyU9) (.failure (.transport 0))
        (.ok .null) .disconnected).response
      = .unhandledRejection .serviceUnavailable :=
  ⟨rfl, rfl⟩

/-- C3: under three consecutive retryable faults `fetchWithBackoff` makes
exactly `MAX_HTTP_RETRIES` attempts and then fails — but the error it
throws is the ReferenceError from the unbound name `err` in
`throw err` (the catch binds `error`), not an error carrying the last
underlying failure `transport 2`. -/
theorem fetch_exhaustion_throws_reference_error :
    (fetchWithBackoff attemptsAllFail jitterZero).attemptsMade = MAX_HTTP_RETRIES ∧
    (fetchWithBackoff attemptsAllFail jitterZero).result = .error .refErrUndefined :=
  ⟨rfl, rfl⟩

/-- C4: no handler on the synchronous call path ever writes the fallback
cache: both orders-service route handlers return the cache they were
given, for every input (every reachable cache, request, breaker path,
database and broker outcome). The remaining synchronous-path operations
(`fetchWithBackoff`, `callUserService`, `fire`, `breakerFallback`) take
the cache at most as a read-only argument and return no cache at all, so
they cannot write it; only `consumeHandler` produces a new cache. -/
theorem sync_call_path_preserves_cache (cache : Cache) (reqBody : Option JsonValue)
    (p : BreakerPath) (db : Except JsError JsonValue) (amqp : AmqpState)
    (id : String) (db2 : Except JsError JsonValue) (amqp2 : AmqpState) :
    (ordersPostHandler cache reqBody p db amqp).cache = cache ∧
    (ordersDeleteHandler cache id db2 amqp2).cache = cache := by
  constructor
  · unfold ordersPostHandler
    dsimp only
    repeat' split
    all_goals rfl
  · unfold ordersDeleteHandler
    dsimp only
    repeat' split
    all_goals rfl

/-- C5 counterexample: the content `"null"` parses as JSON (to `null`),
yet the consumer does not store it and does not ack; reading `user.id`
throws a TypeError, the catch block nacks, and the cache is unchanged —
so the claim that every message whose content parses as JSON is stored
and acknowledged is false at this input. -/
theorem consume_null_parses_but_not_stored :
    (consumeHandler [] (.wellFormed .null)).acked = false ∧
    (consumeHandler [] (.wellFormed .null)).nacked = true ∧
    (consumeHandler [] (.wellFormed .null)).cache = [] :=
  ⟨rfl, rfl, rfl⟩

/-- C5 amended: if the content parses as JSON to a value other than
`null`, the payload is stored keyed by its `id` property (key `undefined`
when absent) and the message is acked; if parsing fails — or the value is
`null`, whose `id` read throws — the message is nacked without requeue
and the cache is unchanged; in every case no exception escapes the
handler (the process does not crash). -/
theorem consume_parse_amended (c : Cache) (m : MsgContent) :
    (∀ v, m = .wellFormed v → v ≠ .null →
      consumeHandler c m
        = { cache := cacheSet c (keyOfId (jsGetPropOr "id" v)) v,
            acked := true, nacked := false, crashed := false }) ∧
    (m = .malformed →
      consumeHandler c m = { cache := c, acked := false, nacked := true, crashed := false }) ∧
    (m = .wellFormed .null →
      consumeHandler c m = { cache := c, acked := false, nacked := true, crashed := false }) ∧
    (consumeHandler c m).crashed = false := by
  refine ⟨?_, ?_, ?_, ?_⟩
  · rintro v rfl hv
    cases v with
    | null => exact absurd rfl hv
    | bool b => rfl
    | num n => rfl
    | str s => rfl
    | arr xs => rfl
    | obj fs => rfl
  · rintro rfl; rfl
  · rintro rfl; rfl
  · cases m with
    | malformed => rfl
    | wellFormed v =>
      unfold consumeHandler
      dsimp only
      split <;> rfl

/-- C5 witness: consuming a well-formed non-null payload with id `u_1`
into an empty cache stores it under that id and acks. -/
theorem consume_parse_amended_witness :
    (JsonValue.obj [("id", .str "u_1")] ≠ JsonValue.null) ∧
    consumeHandler [] (.wellFormed (.obj [("id", .str "u_1")]))
      = { cache := [(JsKey.val (.str "u_1"), .obj [("id", .str "u_1")])],
          acked := true, nacked := false, crashed := false } := by
  constructor
  · intro h; exact JsonValue.noConfusion h
  · exact (consume_parse_amended [] (.wellFormed (.obj [("id", .str "u_1")]))).1
      (.obj [("id", .str "u_1")]) rfl (fun h => JsonValue.noConfusion h)

/-- C6 counterexample: consuming the same payload twice is NOT always a
no-op — when the unvalidated `id` property is an object, each delivery
parses it into a fresh reference, the `Map` (SameValueZero) finds no
equal key, and the second consumption appends a second entry, so the
cache after two consumptions differs from the cache after one. -/
theorem consume_object_id_not_idempotent :
    (consumeHandler (consumeHandler [] (.wellFormed objIdPayload)).cache
        (.wellFormed objIdPayload)).cache
      ≠ (consumeHandler [] (.wellFormed objIdPayload)).cache := by
  intro h
  exact absurd (congrArg List.length h) (by decide)

/-- C6 amended: consuming the same event payload twice leaves the cache
exactly as consuming it once left it, provided the payload's `id` is a
primitive value or absent (key `undefined`) — the second write then
overwrites the identical entry in place. (For a payload that is `null`
both consumptions leave the cache untouched, which the hypothesis also
covers since `jsGetProp` returns no `ok` value there.) -/
theorem consume_idempotent_primitive_id (c : Cache) (v : JsonValue)
    (h : ∀ idProp, jsGetProp "id" v = .ok idProp → (keyOfId idProp).isPrim = true) :
    (consumeHandler (consumeHandler c (.wellFormed v)).cache (.wellFormed v)).cache
      = (consumeHandler c (.wellFormed v)).cache := by
  unfold consumeHandler
  cases hp : jsGetProp "id" v with
  | error e => simp [hp]
  | ok idProp => simp [hp, cacheSet_idem_of_prim c (keyOfId idProp) v (h idProp hp)]

/-- C6 witness: consuming the payload with string id `u_1` twice yields
the same single-entry cache as consuming it once. -/
theorem consume_idempotent_primitive_id_witness :
    (∀ idProp, jsGetProp "id" userU1 = .ok idProp → (keyOfId idProp).isPrim = true) ∧
    (consumeHandler (consumeHandler [] (.wellFormed userU1)).cache (.wellFormed userU1)).cache
      = (consumeHandler [] (.wellFormed userU1)).cache := by
  have hh : ∀ idProp, jsGetProp "id" userU1 = .ok idProp → (keyOfId idProp).isPrim = true := by
    intro idProp h
    injection h with h2
    subst h2
    rfl
  exact ⟨hh, consume_idempotent_primitive_id [] userU1 hh⟩

/-- C10: a consumed message whose content parses to a non-null value with
no `id` property (the read of `id` yields `undefined`) is stored in the
cache under the key `undefined` and acknowledged; no shape validation
happens before the write. -/
theorem consume_no_id_key_undefined (c : Cache) (v : JsonValue)
    (h : jsGetProp "id" v = .ok none) :
    consumeHandler c (.wellFormed v)
      = { cache := cacheSet c JsKey.undef v, acked := true, nacked := false, crashed := false } := by
  unfold consumeHandler
  dsimp only
  rw [h]
  rfl

/-- C10 witness: the JSON number 5 has no `id` property; consuming it
stores it under the key `undefined` and acks. -/
theorem consume_no_id_key_undefined_witness :
    jsGetProp "id" (.num 5) = .ok none ∧
    consumeHandler [] (.wellFormed (.num 5))
      = { cache := [(JsKey.undef, .num 5)], acked := true, nacked := false, crashed := false } :=
  ⟨rfl, consume_no_id_key_undefined [] (.num 5) rfl⟩

/-- C8: within any one outer call, the sleep preceding the k-th retried
attempt (k counted 1-based; the list index is `k - 1`) lies in the
half-open window from `BASE_HTTP_RETRY_DELAY * 2 ^ (k - 1)` (500 ms base)
to that value plus the 200 ms jitter bound. The exponent depends only on
the position inside the call — every call starts its loop at
`retries = 0`, so the exponent resets with each outer call. -/
theorem retry_sleep_within_backoff_window (attempts : Nat → FetchOutcome)
    (jitters : Nat → Fin 200) (k : Nat)
    (h : k < (fetchWithBackoff attempts jitters).sleeps.length) :
    BASE_HTTP_RETRY_DELAY * 2 ^ k ≤ (fetchWithBackoff attempts jitters).sleeps.get ⟨k, h⟩ ∧
    (fetchWithBackoff attempts jitters).sleeps.get ⟨k, h⟩
      < BASE_HTTP_RETRY_DELAY * 2 ^ k + 200 := by
  have hx : (fetchWithBackoff attempts jitters).sleeps.get? k
      = some ((fetchWithBackoff attempts jitters).sleeps.get ⟨k, h⟩) :=
    List.get?_eq_get h
  have hv := fetchLoop_sleeps_nth attempts jitters MAX_HTTP_RETRIES MAX_HTTP_RETRIES 0 k
    ((fetchWithBackoff attempts jitters).sleeps.get ⟨k, h⟩) hx
  rw [Nat.zero_add] at hv
  rw [hv]
  exact ⟨Nat.le_add_right _ _, Nat.add_lt_add_left (jitters k).isLt _⟩

/-- C8 witness: in the all-faults run with zero jitter draws, the sleep at
index 1 (before the second retried attempt) is 1000 ms, inside the window
from 1000 to 1200. -/
theorem retry_sleep_within_backoff_window_witness :
    (1 < (fetchWithBackoff attemptsAllFail jitterZero).sleeps.length) ∧
    (BASE_HTTP_RETRY_DELAY * 2 ^ 1
        ≤ (fetchWithBackoff attemptsAllFail jitterZero).sleeps.get ⟨1, by decide⟩ ∧
      (fetchWithBackoff attemptsAllFail jitterZero).sleeps.get ⟨1, by decide⟩
        < BASE_HTTP_RETRY_DELAY * 2 ^ 1 + 200) :=
  ⟨by decide, retry_sleep_within_backoff_window attemptsAllFail jitterZero 1 (by decide)⟩

/-- C9: for each state-changing operation — create order, cancel order,
create user — a publish call that throws is invisible to the HTTP caller
and to the database: the handler run with a throwing publish produces the
same response and the same committed writes as the run in which the
publish succeeds (they differ only in the event actually emitted), for
every input; and a cancel whose database update succeeded always answers
200 with the mutation kept, regardless of the broker. -/
theorem publish_failure_invisible_to_caller
    (cache : Cache) (reqBody : Option JsonValue) (p : BreakerPath)
    (db db2 db3 : Except JsError JsonValue) (id : String)
    (reqBody2 : Option JsonValue) (order : JsonValue) (amqp : AmqpState) :
    ((ordersPostHandler cache reqBody p db (.connected .throws)).response
        = (ordersPostHandler cache reqBody p db (.connected .ok)).response
      ∧ (ordersPostHandler cache reqBody p db (.connected .throws)).dbWrites
        = (ordersPostHandler cache reqBody p db (.connected .ok)).dbWrites) ∧
    ((ordersDeleteHandler cache id db2 (.connected .throws)).response
        = (ordersDeleteHandler cache id db2 (.connected .ok)).response
      ∧ (ordersDeleteHandler cache id db2 (.connected .throws)).dbWrites
        = (ordersDeleteHandler cache id db2 (.connected .ok)).dbWrites) ∧
    ((usersPostHandler reqBody2 db3 (.connected .throws)).response
        = (usersPostHandler reqBody2 db3 (.connected .ok)).response
      ∧ (usersPostHandler reqBody2 db3 (.connected .throws)).dbWrites
        = (usersPostHandler reqBody2 db3 (.connected .ok)).dbWrites) ∧
    ((ordersDeleteHandler cache id (.ok order) amqp).response
        = .response 200 (.obj [("message", .str "order cancelled"), ("id", .str id)])
      ∧ (ordersDeleteHandler cache id (.ok order) amqp).dbWrites = [order]) := by
  refine ⟨⟨?_, ?_⟩, ⟨?_, ?_⟩, ⟨?_, ?_⟩, ⟨?_, ?_⟩⟩
  · unfold ordersPostHandler
    dsimp only
    repeat' split
    all_goals rfl
  · unfold ordersPostHandler
    dsimp only
    repeat' split
    all_goals rfl
  · unfold ordersDeleteHandler
    dsimp only
    repeat' split
    all_goals rfl
  · unfold ordersDeleteHandler
    dsimp only
    repeat' split
    all_goals rfl
  · unfold usersPostHandler
    dsimp only
    repeat' split
    all_goals rfl
  · unfold usersPostHandler
    dsimp only
    repeat' split
    all_goals rfl
  · rfl
  · rfl

/-- C7: whenever an upstream attempt — the first, or any later one after
a prefix of retryable faults — resolves with a client-class (4xx) status,
the retrier returns it on that very attempt: exactly the attempts so far
and no further retry, no sleep after the resolution; `callUserService`
maps it to the invalid-user object carrying the upstream status; the
breaker takes the success path and never invokes the fallback; and the
`POST /` route answers the original caller with exactly the upstream
status code and the invalid-user error body. -/
theorem client_fault_immediate (attempts : Nat → FetchOutcome)
    (jitters : Nat → Fin 200) (r : JsResponse) (i : Nat)
    (hi : i < MAX_HTTP_RETRIES)
    (hprev : ∀ j, j < i → ∃ e, attemptResult (attempts j) = .error e)
    (hr : attempts i = .resp r) (h4 : 400 ≤ r.status) (h4b : r.status ≤ 499)
    (cache : Cache) (uid : String) (hu : uid ≠ "")
    (its : List JsonValue) (n : Int)
    (db : Except JsError JsonValue) (amqp : AmqpState) :
    (fetchWithBackoff attempts jitters).attemptsMade = i + 1 ∧
    (fetchWithBackoff attempts jitters).sleeps.length = i ∧
    callUserService attempts jitters = .ok (invalidUserObj r.status) ∧
    (fire cache (.str uid) (breakerPathOf (callUserService attempts jitters))).fallbackInvoked
      = false ∧
    (ordersPostHandler cache
        (some (.obj [("userId", .str uid), ("items", .arr its), ("total", .num n)]))
        (breakerPathOf (callUserService attempts jitters)) db amqp).response
      = .response r.status (mkErrObj "usuário inválido") := by
  have hlt : ¬ (r.status ≥ 500) := by omega
  have hA : attemptResult (attempts i) = .ok r := by
    rw [hr]
    unfold attemptResult
    dsimp only
    rw [if_neg hlt]
  have hA0 : attemptResult (attempts (0 + i)) = .ok r := by rwa [Nat.zero_add]
  have hmax : MAX_HTTP_RETRIES = 3 := rfl
  have hfail : ∀ j, j < i → 0 + j ≠ MAX_HTTP_RETRIES - 1 ∧
      ∃ e, attemptResult (attempts (0 + j)) = .error e := by
    intro j hj
    refine ⟨by omega, ?_⟩
    rw [Nat.zero_add]
    exact hprev j hj
  have hrun := fetchLoop_ok_after_faults attempts jitters MAX_HTTP_RETRIES r
    MAX_HTTP_RETRIES 0 i hi hfail hA0
  have hres : (fetchWithBackoff attempts jitters).result = .ok (some r) := hrun.1
  have hok : respOk r = false := by
    unfold respOk
    have hx : ¬ (r.status ≤ 299) := by omega
    simp [hx]
  have hcall : callUserService attempts jitters = .ok (invalidUserObj r.status) := by
    unfold callUserService
    rw [hres]
    dsimp only
    rw [hok]
    rfl
  refine ⟨hrun.2.1, hrun.2.2, hcall, by rw [hcall]; rfl, ?_⟩
  rw [hcall]
  unfold ordersPostHandler
  dsimp only
  have hcond : (jsTruthyOpt (jsGetPropOr "userId" (bodyOrEmpty (some (.obj
        [("userId", .str uid), ("items", .arr its), ("total", .num n)])))) &&
      isArrayOpt (jsGetPropOr "items" (bodyOrEmpty (some (.obj
        [("userId", .str uid), ("items", .arr its), ("total", .num n)])))) &&
      isNumberOpt (jsGetPropOr "total" (bodyOrEmpty (some (.obj
        [("userId", .str uid), ("items", .arr its), ("total", .num n)]))))) = true := by
    show (decide (uid ≠ "") && true && true) = true
    simp [hu]
  rw [if_neg (fun hC => hC hcond)]
  have hst : statusOr400 (some (.num (r.status : Int))) = r.status := by
    unfold statusOr400
    dsimp only
    rw [if_pos]
    · omega
    · omega
  show HttpOutcome.response (statusOr400 (some (.num (r.status : Int))))
      (.obj [("error", JsonValue.str "usuário inválido")]) = _
  rw [hst]
  rfl

/-- C7 witness: after one transport fault, a concrete 404 on the second
attempt ends the retrier there (two attempts, one sleep) and surfaces to
the HTTP caller as a 404 with the invalid-user error body. -/
theorem client_fault_immediate_witness :
    attemptsFaultThen404 1 = .resp ⟨404, .null⟩ ∧
    (fetchWithBackoff attemptsFaultThen404 jitterZero).attemptsMade = 2 ∧
    (fetchWithBackoff attemptsFaultThen404 jitterZero).sleeps.length = 1 ∧
    (ordersPostHandler []
        (some (.obj [("userId", .str "u_1"), ("items", .arr []), ("total", .num 10)]))
        (breakerPathOf (callUserService attemptsFaultThen404 jitterZero))
        (.ok .null) .disconnected).response
      = .response 404 (mkErrObj "usuário inválido") := by
  have hprev : ∀ j, j < 1 → ∃ e, attemptResult (attemptsFaultThen404 j) = .error e := by
    intro j hj
    have hj0 : j = 0 := by omega
    subst hj0
    exact ⟨.transport 0, rfl⟩
  have h := client_fault_immediate attemptsFaultThen404 jitterZero ⟨404, .null⟩ 1 (by decide)
    hprev rfl (by decide) (by decide) [] "u_1" (by decide) [] 10 (.ok .null) .disconnected
  exact ⟨rfl, h.1, h.2.1, h.2.2.2.2⟩

